import Mathlib

/-!
Shallow embedding of `src/rudder_walker_vjoy.py` (RudderWalker).

The script maps rudder-pedal and toe-brake axis events to a virtual
joystick: a decaying walking `velocity`, a lateral axis driven by the
brakes, a sprint-hold button and a crouch-toggle button.  Floats are
modelled as rationals; device writes are modelled as `WriteOp` values
sent through a failure oracle `fail : WriteOp → Bool` (a `true` result
models the write raising an exception).  Writes the Python wraps in
`try/except` swallow the failure; the one unguarded write (the lateral
axis write in the two brake handlers) propagates, which the brake
handlers reflect by returning `Except`.
-/

namespace RudderWalker

set_option maxRecDepth 8000

/-- Toe-brake mode constant `TOE_BRAKE_MODE_CROUCH = 0`. -/
def TOE_BRAKE_MODE_CROUCH : ℕ := 0

/-- Toe-brake mode constant `TOE_BRAKE_MODE_BACKWARD = 1`. -/
def TOE_BRAKE_MODE_BACKWARD : ℕ := 1

/-- The module-level settings (`IntegerVariable`/`FloatVariable`/`BoolVariable`
objects); fixed for a run. Defaults are the defaults declared in the script. -/
structure Config where
  vjoy_forward_axis : ℕ := 2
  vjoy_lateral_axis : ℕ := 1
  sensitivity : ℚ := 4/5
  decay_rate : ℚ := 19/20
  sprint_enabled : Bool := true
  run_threshold : ℚ := 7/10
  run_duration : ℚ := 1/5
  run_button : ℕ := 1
  toe_brake_mode : ℕ := TOE_BRAKE_MODE_CROUCH
  crouch_button : ℕ := 2
deriving DecidableEq

/-- The mutable fields of the singleton `TreadmillState` that the claims are
about (`vjoy_id` is the constant 1 and the decay-thread bookkeeping fields
are lifecycle-only, so they are left out of the model). -/
structure TreadmillState where
  velocity : ℚ := 0
  last_rudder_pos : ℚ := 0
  is_running : Bool := false
  above_threshold_time : Option ℚ := none
  left_brake_value : ℚ := 0
  right_brake_value : ℚ := 0
  both_brakes_pressed : Bool := false
  is_crouching : Bool := false
deriving DecidableEq

/-- The initial state: all fields at their class defaults. -/
def initState : TreadmillState := {}

/-- One attempted write to the virtual device: `axis(index).value = value`
or `button(index).is_pressed = pressed`. -/
inductive WriteOp where
  | axisW (index : ℕ) (value : ℚ)
  | buttonW (index : ℕ) (pressed : Bool)
deriving DecidableEq

/-- The failure oracle under which every device write succeeds. -/
def noFail : WriteOp → Bool := fun _ => false

/-- Is the write an axis write? -/
def WriteOp.isAxis : WriteOp → Bool
  | .axisW _ _ => true
  | .buttonW _ _ => false

/-- The axis writes in a write trace. -/
def axisWrites (ws : List WriteOp) : List WriteOp :=
  ws.filter WriteOp.isAxis

/-- The trailing release check of `update_run_state` (the final
`if state.is_running and ...` statement); `hasLat` is the
`has_lateral_movement` flag computed at the top of the function, `acc` the
writes already attempted.  The state fields are assigned before the button
write, so the state outcome is the same whether or not the write fails. -/
def run_release_check (cfg : Config) (s : TreadmillState) (hasLat : Bool)
    (acc : List WriteOp) : TreadmillState × List WriteOp :=
  if s.is_running = true ∧ s.velocity < cfg.run_threshold ∧ hasLat = false then
    ({ s with is_running := false, above_threshold_time := none },
     acc ++ [WriteOp.buttonW cfg.run_button false])
  else (s, acc)

/-- `update_run_state(vjoy_handle, current_time)`: the sprint-hold logic.
The whole body sits in a `try/except`, so a failing button write never
propagates; a failure in the press write aborts the rest of the body. -/
def update_run_state (cfg : Config) (fail : WriteOp → Bool) (s : TreadmillState)
    (t : ℚ) : TreadmillState × List WriteOp :=
  if cfg.sprint_enabled = false ∨ s.is_crouching = true then (s, [])
  else
    let hasLat : Bool :=
      decide (1/10 < s.left_brake_value) || decide (1/10 < s.right_brake_value)
    if s.is_running = false ∧ cfg.run_threshold ≤ s.velocity then
      match s.above_threshold_time with
      | none =>
          run_release_check cfg { s with above_threshold_time := some t } hasLat []
      | some a =>
          if cfg.run_duration ≤ t - a then
            let s1 := { s with is_running := true }
            let w := WriteOp.buttonW cfg.run_button true
            if fail w = true then (s1, [w])
            else run_release_check cfg s1 hasLat [w]
          else run_release_check cfg s hasLat []
    else if s.is_running = false ∧ s.velocity < cfg.run_threshold then
      run_release_check cfg { s with above_threshold_time := none } hasLat []
    else run_release_check cfg s hasLat []

/-- `toggle_crouch_mode(vjoy_handle)`: flips `is_crouching` before the
`try` block; a failing crouch-button write skips the sprint-off coupling. -/
def toggle_crouch_mode (cfg : Config) (fail : WriteOp → Bool)
    (s : TreadmillState) : TreadmillState × List WriteOp :=
  let s0 := { s with is_crouching := !s.is_crouching }
  let w1 := WriteOp.buttonW cfg.crouch_button s0.is_crouching
  if fail w1 = true then (s0, [w1])
  else if s0.is_crouching = true ∧ s0.is_running = true then
    ({ s0 with is_running := false }, [w1, WriteOp.buttonW cfg.run_button false])
  else (s0, [w1])

/-- `apply_forward_movement(vjoy_handle)`: the forward-value mapper.  Both of
its axis writes are individually guarded and nothing observable follows them,
so the returned value and attempted write do not depend on the oracle. -/
def apply_forward_movement (cfg : Config) (s : TreadmillState) :
    ℚ × List WriteOp :=
  if s.velocity ≤ 1/100 then (0, [WriteOp.axisW cfg.vjoy_forward_axis 0])
  else
    let forward_value :=
      if s.both_brakes_pressed = true ∧ cfg.toe_brake_mode = TOE_BRAKE_MODE_BACKWARD
      then -s.velocity else s.velocity
    (forward_value, [WriteOp.axisW cfg.vjoy_forward_axis forward_value])

/-- `check_both_brakes_state(vjoy_handle)`: the both-brakes edge detector. -/
def check_both_brakes_state (cfg : Config) (fail : WriteOp → Bool)
    (s : TreadmillState) : TreadmillState × List WriteOp :=
  let both_pressed : Bool :=
    decide (1/10 < s.left_brake_value) && decide (1/10 < s.right_brake_value)
  if both_pressed = true ∧ s.both_brakes_pressed = false then
    ({ s with both_brakes_pressed := true }, [])
  else if both_pressed = false ∧ s.both_brakes_pressed = true then
    let s1 := { s with both_brakes_pressed := false }
    if cfg.toe_brake_mode = TOE_BRAKE_MODE_CROUCH then
      toggle_crouch_mode cfg fail s1
    else (s1, [])
  else (s, [])

/-- The velocity/`last_rudder_pos` update at the top of `on_rudder_move`. -/
def rudder_velocity_update (cfg : Config) (s : TreadmillState) (raw : ℚ) :
    TreadmillState :=
  let delta := |raw - s.last_rudder_pos|
  let s1 := { s with last_rudder_pos := raw }
  if 1/1000 < delta then
    { s1 with velocity := min 1 (s1.velocity + delta * cfg.sensitivity) }
  else s1

/-- `on_rudder_move(event, vjoy)` (minus the decay-thread spawn, which only
touches the unmodelled lifecycle fields): velocity update, forward-axis
recompute, sprint re-evaluation. -/
def on_rudder_move (cfg : Config) (fail : WriteOp → Bool) (s : TreadmillState)
    (raw t : ℚ) : TreadmillState × List WriteOp :=
  let s1 := rudder_velocity_update cfg s raw
  let fw := apply_forward_movement cfg s1
  let ru := update_run_state cfg fail s1 t
  (ru.1, fw.2 ++ ru.2)

/-- The `state.velocity *= decay_rate` step plus the sub-epsilon snap of the
decay-loop body. -/
def decay_velocity_update (cfg : Config) (s : TreadmillState) : TreadmillState :=
  let s1 := { s with velocity := s.velocity * cfg.decay_rate }
  if s1.velocity < 1/100 then { s1 with velocity := 0 } else s1

/-- One iteration of the `while` body of `decay_loop`. -/
def decay_tick (cfg : Config) (fail : WriteOp → Bool) (s : TreadmillState)
    (t : ℚ) : TreadmillState × List WriteOp :=
  let s1 := decay_velocity_update cfg s
  let fw := apply_forward_movement cfg s1
  let ru := update_run_state cfg fail s1 t
  (ru.1, fw.2 ++ ru.2)

/-- The cleanup block of `decay_loop` after the `while` loop exits (minus the
lifecycle-flag reset).  The whole block is one `try`, so a failing
forward-axis zeroing skips the sprint release. -/
def decay_loop_exit (cfg : Config) (fail : WriteOp → Bool)
    (s : TreadmillState) : TreadmillState × List WriteOp :=
  let w0 := WriteOp.axisW cfg.vjoy_forward_axis 0
  if fail w0 = true then (s, [w0])
  else if cfg.sprint_enabled = true ∧ s.is_running = true ∧ s.is_crouching = false then
    if ¬(1/10 < s.left_brake_value ∨ 1/10 < s.right_brake_value) then
      ({ s with is_running := false }, [w0, WriteOp.buttonW cfg.run_button false])
    else (s, [w0])
  else (s, [w0])

/-- `on_left_brake_move(event, vjoy)`: normalize, edge-check, then the
UNGUARDED lateral-axis write (its failure propagates, hence `Except`),
then the conditional sprint re-evaluation. -/
def on_left_brake_move (cfg : Config) (fail : WriteOp → Bool)
    (s : TreadmillState) (raw t : ℚ) :
    Except Unit (TreadmillState × List WriteOp) :=
  let s1 := { s with left_brake_value := (raw + 1) / 2 }
  let cb := check_both_brakes_state cfg fail s1
  if cb.1.both_brakes_pressed = true then Except.ok cb
  else
    let w := WriteOp.axisW cfg.vjoy_lateral_axis (-cb.1.left_brake_value)
    if fail w = true then Except.error ()
    else if 0 < cb.1.velocity then
      let ru := update_run_state cfg fail cb.1 t
      Except.ok (ru.1, cb.2 ++ [w] ++ ru.2)
    else Except.ok (cb.1, cb.2 ++ [w])

/-- `on_right_brake_move(event, vjoy)`: mirror image of the left handler,
writing `+right_brake_value` to the lateral axis. -/
def on_right_brake_move (cfg : Config) (fail : WriteOp → Bool)
    (s : TreadmillState) (raw t : ℚ) :
    Except Unit (TreadmillState × List WriteOp) :=
  let s1 := { s with right_brake_value := (raw + 1) / 2 }
  let cb := check_both_brakes_state cfg fail s1
  if cb.1.both_brakes_pressed = true then Except.ok cb
  else
    let w := WriteOp.axisW cfg.vjoy_lateral_axis cb.1.right_brake_value
    if fail w = true then Except.error ()
    else if 0 < cb.1.velocity then
      let ru := update_run_state cfg fail cb.1 t
      Except.ok (ru.1, cb.2 ++ [w] ++ ru.2)
    else Except.ok (cb.1, cb.2 ++ [w])

/-- Resulting state of a possibly-raising handler: on an uncaught exception
the handler aborts and the shared state keeps the updates made so far; for
the two brake handlers the lateral write is last before any further state
change, so the pre-write state `d` is what survives. -/
def exceptState (d : TreadmillState)
    (r : Except Unit (TreadmillState × List WriteOp)) : TreadmillState :=
  match r with
  | .ok p => p.1
  | .error _ => d

/-- Write trace of a possibly-raising handler. -/
def exceptWrites (r : Except Unit (TreadmillState × List WriteOp)) :
    List WriteOp :=
  match r with
  | .ok p => p.2
  | .error _ => []

/-- The external events the embedding sequences: a rudder axis event
(raw value, timestamp), one decay-loop tick, a brake axis event, or the
decay-loop exit cleanup. -/
inductive Ev where
  | rudder (raw t : ℚ)
  | tick (t : ℚ)
  | leftBrake (raw t : ℚ)
  | rightBrake (raw t : ℚ)
  | decayExit
deriving DecidableEq

/-- Timestamp carried by an event (the decay-exit cleanup reads no clock). -/
def evTime : Ev → ℚ
  | .rudder _ t => t
  | .tick t => t
  | .leftBrake _ t => t
  | .rightBrake _ t => t
  | .decayExit => 0

/-- One event under the all-writes-succeed oracle. -/
def step (cfg : Config) (s : TreadmillState) : Ev → TreadmillState
  | .rudder raw t => (on_rudder_move cfg noFail s raw t).1
  | .tick t => (decay_tick cfg noFail s t).1
  | .leftBrake raw t => exceptState s (on_left_brake_move cfg noFail s raw t)
  | .rightBrake raw t => exceptState s (on_right_brake_move cfg noFail s raw t)
  | .decayExit => (decay_loop_exit cfg noFail s).1

/-- The state reached from `initState` after a sequence of events. -/
def runEvents (cfg : Config) (evs : List Ev) : TreadmillState :=
  evs.foldl (step cfg) initState

/-- The state after the first `k` events of a sequence. -/
def stateAt (cfg : Config) (evs : List Ev) (k : ℕ) : TreadmillState :=
  runEvents cfg (evs.take k)

/-- Is the event a rudder move or a decay tick? -/
def Ev.isRudderOrTick : Ev → Bool
  | .rudder _ _ => true
  | .tick _ => true
  | _ => false

/-- Did the handler raise an uncaught exception? -/
def raised : Except Unit (TreadmillState × List WriteOp) → Bool
  | .error _ => true
  | .ok _ => false

/-- The script's default settings. -/
def defaultConfig : Config := {}

/-- Default settings with the toe brakes in Backward (reverse-walk) mode. -/
def backwardConfig : Config := { toe_brake_mode := TOE_BRAKE_MODE_BACKWARD }

/-- Scenario C state: velocity 0.5 with both brakes latched as pressed. -/
def scenarioCState : TreadmillState :=
  { velocity := 1/2, both_brakes_pressed := true }

/-- State just before the falling-edge check of Scenario B: left brake
released to 0.05, right brake still at 0.9, both-pressed latch set. -/
def scenarioBState : TreadmillState :=
  { left_brake_value := 1/20, right_brake_value := 9/10,
    both_brakes_pressed := true }

/-- Scenario B as a full event trace: both brakes pressed to 0.9 in
sequence, then both released to 0.05, in Crouch mode. -/
def scenarioBEvents : List Ev :=
  [.leftBrake (4/5) 0, .rightBrake (4/5) 0,
   .leftBrake (-9/10) 0, .rightBrake (-9/10) 0]

/-- Sprint held with velocity already decayed to zero and both brakes
latched as pressed (reachable: the decay loop exits without releasing the
sprint button while lateral input is active). -/
def heldSprintZeroVelState : TreadmillState :=
  { velocity := 0, is_running := true, left_brake_value := 9/10,
    right_brake_value := 9/10, both_brakes_pressed := true }

/-- Failure oracle that fails exactly the crouch-button press write
(`button(2).is_pressed = True`, the default crouch button receiving the
new crouch value): the one anticipated output-write failure of the crouch
toggle, with every other write succeeding. -/
def crouchWriteFails : WriteOp → Bool :=
  fun w => decide (w = WriteOp.buttonW 2 true)

/-- Sprint held at zero velocity with only the left brake active. -/
def heldSprintLeftOnlyState : TreadmillState :=
  { velocity := 0, is_running := true, left_brake_value := 9/10 }

/-- Settings used by the sprint-dwell counterexample trace (a faster decay
rate, still inside the configured range [0.1, 0.99]). -/
def dipConfig : Config := { decay_rate := 1/2 }

/-- Event trace refuting the continuous-dwell reading of the sprint-hold
property: velocity crosses the threshold at t=0 (timestamp recorded), a
both-brake press/release enters crouch, velocity decays below the
threshold at t=0.21 while the crouch flag makes the sprint evaluator skip
(so the timer is not reset), velocity rises again at t=0.22, and the
brake release at t=0.24 leaves crouch and immediately presses the sprint
button 0.03 s after the dip. -/
def dipEvents : List Ev :=
  [.rudder 1 0, .leftBrake (4/5) (1/100), .rightBrake (4/5) (2/100),
   .leftBrake (-1) (3/100), .tick (21/100), .rudder 0 (22/100),
   .leftBrake (4/5) (23/100), .leftBrake (-1) (24/100)]

/-- A minimal sprint-press trace: one rudder swing to velocity 0.8 at t=0,
then one decay tick at t=0.3. -/
def pressEvents : List Ev :=
  [.rudder 1 0, .tick (3/10)]

/-! ### Field-preservation lemmas -/

theorem run_release_check_preserves (cfg : Config) (s : TreadmillState)
    (hasLat : Bool) (acc : List WriteOp) :
    (run_release_check cfg s hasLat acc).1.velocity = s.velocity ∧
    (run_release_check cfg s hasLat acc).1.last_rudder_pos = s.last_rudder_pos ∧
    (run_release_check cfg s hasLat acc).1.left_brake_value = s.left_brake_value ∧
    (run_release_check cfg s hasLat acc).1.right_brake_value = s.right_brake_value ∧
    (run_release_check cfg s hasLat acc).1.both_brakes_pressed = s.both_brakes_pressed ∧
    (run_release_check cfg s hasLat acc).1.is_crouching = s.is_crouching := by
  unfold run_release_check
  split <;> simp

theorem update_run_state_preserves (cfg : Config) (fail : WriteOp → Bool)
    (s : TreadmillState) (t : ℚ) :
    (update_run_state cfg fail s t).1.velocity = s.velocity ∧
    (update_run_state cfg fail s t).1.last_rudder_pos = s.last_rudder_pos ∧
    (update_run_state cfg fail s t).1.left_brake_value = s.left_brake_value ∧
    (update_run_state cfg fail s t).1.right_brake_value = s.right_brake_value ∧
    (update_run_state cfg fail s t).1.both_brakes_pressed = s.both_brakes_pressed ∧
    (update_run_state cfg fail s t).1.is_crouching = s.is_crouching := by
  unfold update_run_state
  dsimp only
  repeat' split
  all_goals first
    | exact run_release_check_preserves ..
    | simp

theorem toggle_crouch_mode_preserves (cfg : Config) (fail : WriteOp → Bool)
    (s : TreadmillState) :
    (toggle_crouch_mode cfg fail s).1.velocity = s.velocity ∧
    (toggle_crouch_mode cfg fail s).1.last_rudder_pos = s.last_rudder_pos ∧
    (toggle_crouch_mode cfg fail s).1.left_brake_value = s.left_brake_value ∧
    (toggle_crouch_mode cfg fail s).1.right_brake_value = s.right_brake_value ∧
    (toggle_crouch_mode cfg fail s).1.both_brakes_pressed = s.both_brakes_pressed ∧
    (toggle_crouch_mode cfg fail s).1.above_threshold_time = s.above_threshold_time := by
  unfold toggle_crouch_mode
  dsimp only
  repeat' split
  all_goals simp

theorem check_both_brakes_state_preserves (cfg : Config) (fail : WriteOp → Bool)
    (s : TreadmillState) :
    (check_both_brakes_state cfg fail s).1.velocity = s.velocity ∧
    (check_both_brakes_state cfg fail s).1.last_rudder_pos = s.last_rudder_pos ∧
    (check_both_brakes_state cfg fail s).1.left_brake_value = s.left_brake_value ∧
    (check_both_brakes_state cfg fail s).1.right_brake_value = s.right_brake_value ∧
    (check_both_brakes_state cfg fail s).1.above_threshold_time = s.above_threshold_time := by
  unfold check_both_brakes_state
  dsimp only
  repeat' split
  all_goals first
    | · have h := toggle_crouch_mode_preserves cfg fail
          { s with both_brakes_pressed := false }
        exact ⟨h.1, h.2.1, h.2.2.1, h.2.2.2.1, h.2.2.2.2.2⟩
    | simp

theorem rudder_velocity_update_preserves (cfg : Config) (s : TreadmillState)
    (raw : ℚ) :
    (rudder_velocity_update cfg s raw).is_running = s.is_running ∧
    (rudder_velocity_update cfg s raw).above_threshold_time = s.above_threshold_time ∧
    (rudder_velocity_update cfg s raw).left_brake_value = s.left_brake_value ∧
    (rudder_velocity_update cfg s raw).right_brake_value = s.right_brake_value ∧
    (rudder_velocity_update cfg s raw).both_brakes_pressed = s.both_brakes_pressed ∧
    (rudder_velocity_update cfg s raw).is_crouching = s.is_crouching := by
  unfold rudder_velocity_update
  dsimp only
  split <;> simp

theorem decay_velocity_update_preserves (cfg : Config) (s : TreadmillState) :
    (decay_velocity_update cfg s).is_running = s.is_running ∧
    (decay_velocity_update cfg s).above_threshold_time = s.above_threshold_time ∧
    (decay_velocity_update cfg s).last_rudder_pos = s.last_rudder_pos ∧
    (decay_velocity_update cfg s).left_brake_value = s.left_brake_value ∧
    (decay_velocity_update cfg s).right_brake_value = s.right_brake_value ∧
    (decay_velocity_update cfg s).both_brakes_pressed = s.both_brakes_pressed ∧
    (decay_velocity_update cfg s).is_crouching = s.is_crouching := by
  unfold decay_velocity_update
  dsimp only
  split <;> simp

/-! ### Step-characterization equations -/

theorem step_rudder_eq (cfg : Config) (s : TreadmillState) (raw t : ℚ) :
    step cfg s (.rudder raw t) =
      (update_run_state cfg noFail (rudder_velocity_update cfg s raw) t).1 := rfl

theorem step_tick_eq (cfg : Config) (s : TreadmillState) (t : ℚ) :
    step cfg s (.tick t) =
      (update_run_state cfg noFail (decay_velocity_update cfg s) t).1 := rfl

theorem step_decayExit_eq (cfg : Config) (s : TreadmillState) :
    step cfg s .decayExit = (decay_loop_exit cfg noFail s).1 := rfl

theorem decay_loop_exit_noFail_state (cfg : Config) (s : TreadmillState) :
    (decay_loop_exit cfg noFail s).1 =
      if cfg.sprint_enabled = true ∧ s.is_running = true ∧ s.is_crouching = false
          ∧ ¬(1/10 < s.left_brake_value ∨ 1/10 < s.right_brake_value) then
        { s with is_running := false }
      else s := by
  unfold decay_loop_exit noFail
  dsimp only
  split_ifs with h1 h2 h3 h4 <;> first | rfl | tauto

theorem step_leftBrake_eq (cfg : Config) (s : TreadmillState) (raw t : ℚ) :
    step cfg s (.leftBrake raw t) =
      (if (check_both_brakes_state cfg noFail
            { s with left_brake_value := (raw + 1) / 2 }).1.both_brakes_pressed = true then
        (check_both_brakes_state cfg noFail { s with left_brake_value := (raw + 1) / 2 }).1
      else if 0 < (check_both_brakes_state cfg noFail
            { s with left_brake_value := (raw + 1) / 2 }).1.velocity then
        (update_run_state cfg noFail
          (check_both_brakes_state cfg noFail { s with left_brake_value := (raw + 1) / 2 }).1 t).1
      else
        (check_both_brakes_state cfg noFail { s with left_brake_value := (raw + 1) / 2 }).1) := by
  by_cases hboth : (check_both_brakes_state cfg noFail
      { s with left_brake_value := (raw + 1) / 2 }).1.both_brakes_pressed = true
  · simp [step, on_left_brake_move, exceptState, noFail, hboth]
  · by_cases hv : 0 < (check_both_brakes_state cfg noFail
        { s with left_brake_value := (raw + 1) / 2 }).1.velocity
    · simp [step, on_left_brake_move, exceptState, noFail, hboth, hv]
    · simp [step, on_left_brake_move, exceptState, noFail, hboth, hv]

theorem step_rightBrake_eq (cfg : Config) (s : TreadmillState) (raw t : ℚ) :
    step cfg s (.rightBrake raw t) =
      (if (check_both_brakes_state cfg noFail
            { s with right_brake_value := (raw + 1) / 2 }).1.both_brakes_pressed = true then
        (check_both_brakes_state cfg noFail { s with right_brake_value := (raw + 1) / 2 }).1
      else if 0 < (check_both_brakes_state cfg noFail
            { s with right_brake_value := (raw + 1) / 2 }).1.velocity then
        (update_run_state cfg noFail
          (check_both_brakes_state cfg noFail { s with right_brake_value := (raw + 1) / 2 }).1 t).1
      else
        (check_both_brakes_state cfg noFail { s with right_brake_value := (raw + 1) / 2 }).1) := by
  by_cases hboth : (check_both_brakes_state cfg noFail
      { s with right_brake_value := (raw + 1) / 2 }).1.both_brakes_pressed = true
  · simp [step, on_right_brake_move, exceptState, noFail, hboth]
  · by_cases hv : 0 < (check_both_brakes_state cfg noFail
        { s with right_brake_value := (raw + 1) / 2 }).1.velocity
    · simp [step, on_right_brake_move, exceptState, noFail, hboth, hv]
    · simp [step, on_right_brake_move, exceptState, noFail, hboth, hv]

/-! ### Velocity bounds (C1) -/

theorem rudder_velocity_update_bounds (cfg : Config) (hs : 0 ≤ cfg.sensitivity)
    (s : TreadmillState) (h0 : 0 ≤ s.velocity) (h1 : s.velocity ≤ 1) (raw : ℚ) :
    0 ≤ (rudder_velocity_update cfg s raw).velocity ∧
    (rudder_velocity_update cfg s raw).velocity ≤ 1 := by
  unfold rudder_velocity_update
  dsimp only
  split
  · exact ⟨le_min zero_le_one (add_nonneg h0 (mul_nonneg (abs_nonneg _) hs)),
      min_le_left _ _⟩
  · exact ⟨h0, h1⟩

theorem decay_velocity_update_bounds (cfg : Config) (hd0 : 0 ≤ cfg.decay_rate)
    (hd1 : cfg.decay_rate ≤ 1) (s : TreadmillState) (h0 : 0 ≤ s.velocity)
    (h1 : s.velocity ≤ 1) :
    0 ≤ (decay_velocity_update cfg s).velocity ∧
    (decay_velocity_update cfg s).velocity ≤ 1 := by
  unfold decay_velocity_update
  dsimp only
  split
  · exact ⟨le_refl 0, zero_le_one⟩
  · exact ⟨mul_nonneg h0 hd0, mul_le_one₀ h1 hd0 hd1⟩

theorem step_velocity_bounds (cfg : Config) (hs : 0 ≤ cfg.sensitivity)
    (hd0 : 0 ≤ cfg.decay_rate) (hd1 : cfg.decay_rate ≤ 1) (s : TreadmillState)
    (h0 : 0 ≤ s.velocity) (h1 : s.velocity ≤ 1) (e : Ev) :
    0 ≤ (step cfg s e).velocity ∧ (step cfg s e).velocity ≤ 1 := by
  cases e with
  | rudder raw t =>
      rw [step_rudder_eq,
        (update_run_state_preserves cfg noFail (rudder_velocity_update cfg s raw) t).1]
      exact rudder_velocity_update_bounds cfg hs s h0 h1 raw
  | tick t =>
      rw [step_tick_eq,
        (update_run_state_preserves cfg noFail (decay_velocity_update cfg s) t).1]
      exact decay_velocity_update_bounds cfg hd0 hd1 s h0 h1
  | leftBrake raw t =>
      rw [step_leftBrake_eq]
      have hcb := (check_both_brakes_state_preserves cfg noFail
        { s with left_brake_value := (raw + 1) / 2 }).1
      split
      · rw [hcb]; exact ⟨h0, h1⟩
      · split
        · rw [(update_run_state_preserves cfg noFail _ t).1, hcb]
          exact ⟨h0, h1⟩
        · rw [hcb]; exact ⟨h0, h1⟩
  | rightBrake raw t =>
      rw [step_rightBrake_eq]
      have hcb := (check_both_brakes_state_preserves cfg noFail
        { s with right_brake_value := (raw + 1) / 2 }).1
      split
      · rw [hcb]; exact ⟨h0, h1⟩
      · split
        · rw [(update_run_state_preserves cfg noFail _ t).1, hcb]
          exact ⟨h0, h1⟩
        · rw [hcb]; exact ⟨h0, h1⟩
  | decayExit =>
      rw [step_decayExit_eq, decay_loop_exit_noFail_state]
      split
      · exact ⟨h0, h1⟩
      · exact ⟨h0, h1⟩

theorem foldl_velocity_bounds (cfg : Config) (hs : 0 ≤ cfg.sensitivity)
    (hd0 : 0 ≤ cfg.decay_rate) (hd1 : cfg.decay_rate ≤ 1) (evs : List Ev)
    (s : TreadmillState) (h0 : 0 ≤ s.velocity) (h1 : s.velocity ≤ 1) :
    0 ≤ (evs.foldl (step cfg) s).velocity ∧ (evs.foldl (step cfg) s).velocity ≤ 1 := by
  induction evs generalizing s with
  | nil => exact ⟨h0, h1⟩
  | cons e rest ih =>
      have hb := step_velocity_bounds cfg hs hd0 hd1 s h0 h1 e
      exact ih (step cfg s e) hb.1 hb.2

/-- C1: for every sequence of events starting from the initial state
(velocity 0), with a non-negative sensitivity gain and a decay rate inside
the configured range [0.1, 0.99], the velocity stays within [0, 1]:
rudder events clamp the increase at 1, decay ticks multiply by the decay
rate and snap sub-0.01 values to 0, and no event drives it negative. -/
theorem velocity_in_unit_interval (cfg : Config) (hs : 0 ≤ cfg.sensitivity)
    (hd0 : 1/10 ≤ cfg.decay_rate) (hd1 : cfg.decay_rate ≤ 99/100)
    (evs : List Ev) :
    0 ≤ (runEvents cfg evs).velocity ∧ (runEvents cfg evs).velocity ≤ 1 := by
  have h0 : (0:ℚ) ≤ cfg.decay_rate := le_trans (by norm_num) hd0
  have h1 : cfg.decay_rate ≤ 1 := le_trans hd1 (by norm_num)
  exact foldl_velocity_bounds cfg hs h0 h1 evs initState (le_refl 0) zero_le_one

/-- Witness for C1 at the default settings on a concrete rudder-plus-tick
trace. -/
theorem velocity_in_unit_interval_witness :
    0 ≤ defaultConfig.sensitivity ∧ 1/10 ≤ defaultConfig.decay_rate ∧
    defaultConfig.decay_rate ≤ 99/100 ∧
    (0 ≤ (runEvents defaultConfig pressEvents).velocity ∧
      (runEvents defaultConfig pressEvents).velocity ≤ 1) :=
  ⟨by with_unfolding_all decide, by with_unfolding_all decide,
   by with_unfolding_all decide,
   velocity_in_unit_interval defaultConfig (by with_unfolding_all decide)
     (by with_unfolding_all decide) (by with_unfolding_all decide) pressEvents⟩

/-- C2: every rudder event computes `delta = |new_raw - last_rudder_pos|`,
updates `last_rudder_pos` to the new raw value (also inside the deadzone),
and raises the velocity to `min 1 (velocity + delta * sensitivity)` exactly
when `delta > 0.001`, leaving it unchanged otherwise. -/
theorem on_rudder_move_spec (cfg : Config) (fail : WriteOp → Bool)
    (s : TreadmillState) (raw t : ℚ) :
    (on_rudder_move cfg fail s raw t).1.last_rudder_pos = raw ∧
    (on_rudder_move cfg fail s raw t).1.velocity =
      (if 1/1000 < |raw - s.last_rudder_pos| then
        min 1 (s.velocity + |raw - s.last_rudder_pos| * cfg.sensitivity)
      else s.velocity) := by
  have hp := update_run_state_preserves cfg fail (rudder_velocity_update cfg s raw) t
  have he : (on_rudder_move cfg fail s raw t).1 =
      (update_run_state cfg fail (rudder_velocity_update cfg s raw) t).1 := rfl
  constructor
  · rw [he, hp.2.1]
    unfold rudder_velocity_update
    dsimp only
    split <;> rfl
  · rw [he, hp.1]
    unfold rudder_velocity_update
    dsimp only
    split <;> rfl

/-- C3: the forward-value mapper writes (and returns) 0 when the velocity
is at most 0.01, and otherwise the velocity, negated exactly when both
brakes are latched as pressed and the toe-brake mode is Backward; in
particular velocity 0.5 in Backward mode with both brakes pressed maps to
a forward output of -0.5. -/
theorem apply_forward_movement_spec (cfg : Config) (s : TreadmillState) :
    (apply_forward_movement cfg s).1 =
      (if s.velocity ≤ 1/100 then 0
       else if s.both_brakes_pressed = true ∧ cfg.toe_brake_mode = TOE_BRAKE_MODE_BACKWARD
       then -s.velocity else s.velocity) ∧
    (apply_forward_movement cfg s).2 =
      [WriteOp.axisW cfg.vjoy_forward_axis (apply_forward_movement cfg s).1] ∧
    (apply_forward_movement backwardConfig scenarioCState).1 = -(1/2) := by
  refine ⟨?_, ?_, by with_unfolding_all decide⟩
  · unfold apply_forward_movement
    dsimp only
    split
    · rfl
    · split <;> rfl
  · unfold apply_forward_movement
    dsimp only
    split <;> simp [apply_forward_movement, *]

/-- C9: `toggle_crouch_mode` flips `is_crouching` before attempting the
crouch-button write, so the flipped value survives any write failure (the
attempted write itself carries the new value). -/
theorem toggle_crouch_not_atomic (cfg : Config) (fail : WriteOp → Bool)
    (s : TreadmillState) :
    (toggle_crouch_mode cfg fail s).1.is_crouching = !s.is_crouching ∧
    (toggle_crouch_mode cfg fail s).2.head? =
      some (WriteOp.buttonW cfg.crouch_button (!s.is_crouching)) := by
  unfold toggle_crouch_mode
  dsimp only
  repeat' split
  all_goals simp

/-! ### Mutual exclusion of sprint and crouch (C5) -/

theorem update_run_state_crouch_skip (cfg : Config) (fail : WriteOp → Bool)
    (s : TreadmillState) (t : ℚ) (h : s.is_crouching = true) :
    update_run_state cfg fail s t = (s, []) := by
  unfold update_run_state
  rw [if_pos (Or.inr h)]

theorem update_run_state_mutex (cfg : Config) (fail : WriteOp → Bool)
    (s : TreadmillState) (t : ℚ)
    (h : s.is_crouching = true → s.is_running = false) :
    (update_run_state cfg fail s t).1.is_crouching = true →
      (update_run_state cfg fail s t).1.is_running = false := by
  intro hcr
  rw [(update_run_state_preserves cfg fail s t).2.2.2.2.2] at hcr
  rw [update_run_state_crouch_skip cfg fail s t hcr]
  exact h hcr

theorem toggle_crouch_mode_mutex (cfg : Config) (s : TreadmillState) :
    (toggle_crouch_mode cfg noFail s).1.is_crouching = true →
      (toggle_crouch_mode cfg noFail s).1.is_running = false := by
  unfold toggle_crouch_mode noFail
  dsimp only
  repeat' split
  all_goals simp_all

theorem check_both_brakes_state_mutex (cfg : Config) (s : TreadmillState)
    (h : s.is_crouching = true → s.is_running = false) :
    (check_both_brakes_state cfg noFail s).1.is_crouching = true →
      (check_both_brakes_state cfg noFail s).1.is_running = false := by
  unfold check_both_brakes_state
  dsimp only
  repeat' split
  all_goals first
    | exact toggle_crouch_mode_mutex cfg _
    | exact h

theorem step_mutex (cfg : Config) (s : TreadmillState) (e : Ev)
    (h : s.is_crouching = true → s.is_running = false) :
    (step cfg s e).is_crouching = true → (step cfg s e).is_running = false := by
  cases e with
  | rudder raw t =>
      rw [step_rudder_eq]
      refine update_run_state_mutex cfg noFail _ t ?_
      have hp := rudder_velocity_update_preserves cfg s raw
      rw [hp.1, hp.2.2.2.2.2]
      exact h
  | tick t =>
      rw [step_tick_eq]
      refine update_run_state_mutex cfg noFail _ t ?_
      have hp := decay_velocity_update_preserves cfg s
      rw [hp.1, hp.2.2.2.2.2.2]
      exact h
  | leftBrake raw t =>
      rw [step_leftBrake_eq]
      have hcb : ({ s with left_brake_value := (raw + 1) / 2 } :
          TreadmillState).is_crouching = true →
          ({ s with left_brake_value := (raw + 1) / 2 } :
          TreadmillState).is_running = false := h
      split
      · exact check_both_brakes_state_mutex cfg _ hcb
      · split
        · exact update_run_state_mutex cfg noFail _ t
            (check_both_brakes_state_mutex cfg _ hcb)
        · exact check_both_brakes_state_mutex cfg _ hcb
  | rightBrake raw t =>
      rw [step_rightBrake_eq]
      have hcb : ({ s with right_brake_value := (raw + 1) / 2 } :
          TreadmillState).is_crouching = true →
          ({ s with right_brake_value := (raw + 1) / 2 } :
          TreadmillState).is_running = false := h
      split
      · exact check_both_brakes_state_mutex cfg _ hcb
      · split
        · exact update_run_state_mutex cfg noFail _ t
            (check_both_brakes_state_mutex cfg _ hcb)
        · exact check_both_brakes_state_mutex cfg _ hcb
  | decayExit =>
      rw [step_decayExit_eq, decay_loop_exit_noFail_state]
      split
      · intro _; rfl
      · exact h

theorem foldl_mutex (cfg : Config) (evs : List Ev) (s : TreadmillState)
    (h : s.is_crouching = true → s.is_running = false) :
    (evs.foldl (step cfg) s).is_crouching = true →
      (evs.foldl (step cfg) s).is_running = false := by
  induction evs generalizing s with
  | nil => exact h
  | cons e rest ih => exact ih (step cfg s e) (step_mutex cfg s e h)

/-- C5 amended: in every state reachable from the initial state while all
device writes succeed, `is_running` and `is_crouching` are never both true:
the crouch toggle forces sprint off in the same transition and the sprint
evaluator skips while crouching.  (The fault-free qualification is forced
by the counterexample below: a failing crouch-button write makes the
`except` skip the sprint-off coupling, leaving both flags true.) -/
theorem sprint_crouch_exclusive (cfg : Config) (evs : List Ev) :
    (runEvents cfg evs).is_running = false ∨
      (runEvents cfg evs).is_crouching = false := by
  have h := foldl_mutex cfg evs initState (by intro h; rfl)
  by_cases hc : (runEvents cfg evs).is_crouching = true
  · exact Or.inl (h hc)
  · exact Or.inr (by simpa using hc)

/-- Counterexample to C5 as stated: from the reachable sprint-held state
with both brakes latched (sprint engaged, lateral input blocking release,
velocity decayed to zero), a left-brake release forms the falling edge and
enters crouch; when the crouch-button write raises (the anticipated
output-write failure of spec error handling, swallowed by the toggle's
`except`), the sprint-off coupling after the write is skipped, so the
handler returns with `is_running` and `is_crouching` both true — and the
violation persists, since the sprint evaluator skips while crouching. -/
theorem sprint_crouch_both_true_on_write_failure :
    (exceptState heldSprintZeroVelState
      (on_left_brake_move defaultConfig crouchWriteFails
        heldSprintZeroVelState (-1) 0)).is_running = true ∧
    (exceptState heldSprintZeroVelState
      (on_left_brake_move defaultConfig crouchWriteFails
        heldSprintZeroVelState (-1) 0)).is_crouching = true := by
  with_unfolding_all decide

/-! ### Falling-edge crouch toggle (C6) -/

theorem toggle_crouch_mode_flips (cfg : Config) (fail : WriteOp → Bool)
    (s : TreadmillState) :
    (toggle_crouch_mode cfg fail s).1.is_crouching = !s.is_crouching ∧
    (toggle_crouch_mode cfg fail s).2.head? =
      some (WriteOp.buttonW cfg.crouch_button (!s.is_crouching)) := by
  unfold toggle_crouch_mode
  dsimp only
  repeat' split
  all_goals simp

/-- C6: on the falling edge of the both-brakes condition (latch set, and now
at least one brake at or below 0.1) the latch is cleared, and exactly in
Crouch mode `is_crouching` is flipped with the crouch button written to the
new value; in any other mode the state change is only the cleared latch. -/
theorem falling_edge_crouch_toggle (cfg : Config) (fail : WriteOp → Bool)
    (s : TreadmillState) (hlatch : s.both_brakes_pressed = true)
    (hrel : s.left_brake_value ≤ 1/10 ∨ s.right_brake_value ≤ 1/10) :
    (check_both_brakes_state cfg fail s).1.both_brakes_pressed = false ∧
    (cfg.toe_brake_mode = TOE_BRAKE_MODE_CROUCH →
      (check_both_brakes_state cfg fail s).1.is_crouching = !s.is_crouching ∧
      (check_both_brakes_state cfg fail s).2.head? =
        some (WriteOp.buttonW cfg.crouch_button (!s.is_crouching))) ∧
    (cfg.toe_brake_mode ≠ TOE_BRAKE_MODE_CROUCH →
      check_both_brakes_state cfg fail s =
        ({ s with both_brakes_pressed := false }, [])) := by
  have hbp : (decide (1/10 < s.left_brake_value) &&
      decide (1/10 < s.right_brake_value)) = false := by
    cases hrel with
    | inl h =>
        rw [decide_eq_false (not_lt.2 h), Bool.false_and]
    | inr h =>
        rw [decide_eq_false (not_lt.2 h), Bool.and_false]
  unfold check_both_brakes_state
  dsimp only
  rw [hbp]
  rw [if_neg (by simp), if_pos ⟨rfl, hlatch⟩]
  by_cases hmode : cfg.toe_brake_mode = TOE_BRAKE_MODE_CROUCH
  · rw [if_pos hmode]
    have hfl := toggle_crouch_mode_flips cfg fail { s with both_brakes_pressed := false }
    have hpr := toggle_crouch_mode_preserves cfg fail { s with both_brakes_pressed := false }
    refine ⟨?_, fun _ => ⟨hfl.1, hfl.2⟩, fun hne => absurd hmode hne⟩
    rw [hpr.2.2.2.2.1]
  · rw [if_neg hmode]
    exact ⟨rfl, fun hc => absurd hc hmode, fun _ => rfl⟩

/-- Witness for C6: the theorem applied to the Scenario-B falling edge
(left 0.05, right 0.9, latch set, Crouch mode), together with the full
Scenario-B event trace ending with crouch toggled on. -/
theorem falling_edge_crouch_toggle_witness :
    ((check_both_brakes_state defaultConfig noFail scenarioBState).1.both_brakes_pressed = false ∧
     (defaultConfig.toe_brake_mode = TOE_BRAKE_MODE_CROUCH →
       (check_both_brakes_state defaultConfig noFail scenarioBState).1.is_crouching =
         !scenarioBState.is_crouching ∧
       (check_both_brakes_state defaultConfig noFail scenarioBState).2.head? =
         some (WriteOp.buttonW defaultConfig.crouch_button (!scenarioBState.is_crouching))) ∧
     (defaultConfig.toe_brake_mode ≠ TOE_BRAKE_MODE_CROUCH →
       check_both_brakes_state defaultConfig noFail scenarioBState =
         ({ scenarioBState with both_brakes_pressed := false }, []))) ∧
    (runEvents defaultConfig scenarioBEvents).is_crouching = true :=
  ⟨falling_edge_crouch_toggle defaultConfig noFail scenarioBState
      (by with_unfolding_all decide) (by with_unfolding_all decide),
   by with_unfolding_all decide⟩

/-! ### Lateral-axis output of the brake handlers (C7) -/

theorem axisWrites_append (l1 l2 : List WriteOp) :
    axisWrites (l1 ++ l2) = axisWrites l1 ++ axisWrites l2 :=
  List.filter_append ..

theorem axisWrites_cons_axis (i : ℕ) (v : ℚ) (l : List WriteOp) :
    axisWrites (WriteOp.axisW i v :: l) = WriteOp.axisW i v :: axisWrites l := rfl

theorem axisWrites_nil : axisWrites [] = [] := rfl

theorem axisWrites_run_release_check (cfg : Config) (s : TreadmillState)
    (hasLat : Bool) (acc : List WriteOp) :
    axisWrites (run_release_check cfg s hasLat acc).2 = axisWrites acc := by
  unfold run_release_check
  split <;> simp [axisWrites, WriteOp.isAxis]

theorem axisWrites_update_run_state (cfg : Config) (fail : WriteOp → Bool)
    (s : TreadmillState) (t : ℚ) :
    axisWrites (update_run_state cfg fail s t).2 = [] := by
  unfold update_run_state
  dsimp only
  repeat' split
  all_goals first
    | (rw [axisWrites_run_release_check]; simp [axisWrites, WriteOp.isAxis])
    | simp [axisWrites, WriteOp.isAxis]

theorem axisWrites_toggle_crouch_mode (cfg : Config) (fail : WriteOp → Bool)
    (s : TreadmillState) :
    axisWrites (toggle_crouch_mode cfg fail s).2 = [] := by
  unfold toggle_crouch_mode
  dsimp only
  repeat' split
  all_goals simp [axisWrites, WriteOp.isAxis]

theorem axisWrites_check_both_brakes_state (cfg : Config) (fail : WriteOp → Bool)
    (s : TreadmillState) :
    axisWrites (check_both_brakes_state cfg fail s).2 = [] := by
  unfold check_both_brakes_state
  dsimp only
  repeat' split
  all_goals first
    | exact axisWrites_toggle_crouch_mode ..
    | simp [axisWrites]

/-- C7: a brake event first normalizes and runs the edge check; if both
brakes are then latched as pressed the handler writes nothing to any axis,
otherwise the left handler writes exactly `-left_brake_value` and the right
handler exactly `+right_brake_value` to the lateral axis; in particular a
left brake at 0.9 with the right at 0 yields lateral output -0.9 with
`both_brakes_pressed` still false. -/
theorem brake_lateral_output (cfg : Config) (s : TreadmillState)
    (rawL rawR tL tR : ℚ) :
    (axisWrites (exceptWrites (on_left_brake_move cfg noFail s rawL tL)) =
      (if (exceptState s (on_left_brake_move cfg noFail s rawL tL)).both_brakes_pressed = true
       then [] else [WriteOp.axisW cfg.vjoy_lateral_axis (-((rawL + 1) / 2))])) ∧
    (axisWrites (exceptWrites (on_right_brake_move cfg noFail s rawR tR)) =
      (if (exceptState s (on_right_brake_move cfg noFail s rawR tR)).both_brakes_pressed = true
       then [] else [WriteOp.axisW cfg.vjoy_lateral_axis ((rawR + 1) / 2)])) ∧
    axisWrites (exceptWrites (on_left_brake_move defaultConfig noFail initState (4/5) 0)) =
      [WriteOp.axisW defaultConfig.vjoy_lateral_axis (-(9/10))] ∧
    (exceptState initState (on_left_brake_move defaultConfig noFail initState (4/5) 0)).both_brakes_pressed = false := by
  refine ⟨?_, ?_, by with_unfolding_all decide, by with_unfolding_all decide⟩
  · have hcb := check_both_brakes_state_preserves cfg noFail
      { s with left_brake_value := (rawL + 1) / 2 }
    by_cases hboth : (check_both_brakes_state cfg noFail
        { s with left_brake_value := (rawL + 1) / 2 }).1.both_brakes_pressed = true
    · simp [on_left_brake_move, exceptWrites, exceptState, noFail, hboth,
        axisWrites_check_both_brakes_state]
    · by_cases hv : 0 < (check_both_brakes_state cfg noFail
          { s with left_brake_value := (rawL + 1) / 2 }).1.velocity
      · simp [on_left_brake_move, exceptWrites, exceptState, noFail, hboth, hv,
          axisWrites_check_both_brakes_state, axisWrites_update_run_state,
          axisWrites_append, axisWrites_cons_axis, axisWrites_nil,
          (update_run_state_preserves cfg noFail _ tL).2.2.2.2.1, hcb.2.2.1]
      · simp [on_left_brake_move, exceptWrites, exceptState, noFail, hboth, hv,
          axisWrites_check_both_brakes_state, axisWrites_append,
          axisWrites_cons_axis, axisWrites_nil, hcb.2.2.1]
  · have hcb := check_both_brakes_state_preserves cfg noFail
      { s with right_brake_value := (rawR + 1) / 2 }
    by_cases hboth : (check_both_brakes_state cfg noFail
        { s with right_brake_value := (rawR + 1) / 2 }).1.both_brakes_pressed = true
    · simp [on_right_brake_move, exceptWrites, exceptState, noFail, hboth,
        axisWrites_check_both_brakes_state]
    · by_cases hv : 0 < (check_both_brakes_state cfg noFail
          { s with right_brake_value := (rawR + 1) / 2 }).1.velocity
      · simp [on_right_brake_move, exceptWrites, exceptState, noFail, hboth, hv,
          axisWrites_check_both_brakes_state, axisWrites_update_run_state,
          axisWrites_append, axisWrites_cons_axis, axisWrites_nil,
          (update_run_state_preserves cfg noFail _ tR).2.2.2.2.1, hcb.2.2.2.1]
      · simp [on_right_brake_move, exceptWrites, exceptState, noFail, hboth, hv,
          axisWrites_check_both_brakes_state, axisWrites_append,
          axisWrites_cons_axis, axisWrites_nil, hcb.2.2.2.1]

/-! ### Write-failure isolation (C8) -/

/-- Counterexample to C8: with an oracle that fails every write, the left
brake handler aborts with an uncaught exception — the lateral-axis write at
the end of the handler is not wrapped in `try/except`, so an output-write
failure does propagate out of an event handler. -/
theorem lateral_write_failure_propagates :
    raised (on_left_brake_move defaultConfig (fun _ => true) initState (4/5) 0) = true := by
  with_unfolding_all decide

/-- C8 amended: the brake handlers propagate an output-write failure exactly
when they reach their unguarded lateral-axis write (both brakes not latched
after the edge check) and that single write fails; every other write
(buttons in the edge/crouch/sprint logic) is swallowed and never aborts the
handler. -/
theorem write_failure_isolation (cfg : Config) (fail : WriteOp → Bool)
    (s : TreadmillState) (rawL rawR tL tR : ℚ) :
    (raised (on_left_brake_move cfg fail s rawL tL) = true ↔
      ((check_both_brakes_state cfg fail
          { s with left_brake_value := (rawL + 1) / 2 }).1.both_brakes_pressed = false ∧
       fail (WriteOp.axisW cfg.vjoy_lateral_axis (-((rawL + 1) / 2))) = true)) ∧
    (raised (on_right_brake_move cfg fail s rawR tR) = true ↔
      ((check_both_brakes_state cfg fail
          { s with right_brake_value := (rawR + 1) / 2 }).1.both_brakes_pressed = false ∧
       fail (WriteOp.axisW cfg.vjoy_lateral_axis ((rawR + 1) / 2)) = true)) := by
  constructor
  · have hcb := check_both_brakes_state_preserves cfg fail
      { s with left_brake_value := (rawL + 1) / 2 }
    unfold on_left_brake_move
    dsimp only
    rw [hcb.2.2.1]
    by_cases hboth : (check_both_brakes_state cfg fail
        { s with left_brake_value := (rawL + 1) / 2 }).1.both_brakes_pressed = true
    · simp [hboth, raised]
    · by_cases hw : fail (WriteOp.axisW cfg.vjoy_lateral_axis (-((rawL + 1) / 2))) = true
      · simp [hboth, hw, raised]
      · simp only [hboth, hw, if_neg, if_false]
        split
        · simp [raised, hboth, hw]
        · split <;> simp [raised, hboth, hw]
  · have hcb := check_both_brakes_state_preserves cfg fail
      { s with right_brake_value := (rawR + 1) / 2 }
    unfold on_right_brake_move
    dsimp only
    rw [hcb.2.2.2.1]
    by_cases hboth : (check_both_brakes_state cfg fail
        { s with right_brake_value := (rawR + 1) / 2 }).1.both_brakes_pressed = true
    · simp [hboth, raised]
    · by_cases hw : fail (WriteOp.axisW cfg.vjoy_lateral_axis ((rawR + 1) / 2)) = true
      · simp [hboth, hw, raised]
      · simp only [hboth, hw, if_neg, if_false]
        split
        · simp [raised, hboth, hw]
        · split <;> simp [raised, hboth, hw]

/-! ### Brake events at zero velocity and the sprint state (C10) -/

theorem check_both_brakes_state_sprint_frame (cfg : Config) (s : TreadmillState)
    (hbtn : cfg.run_button ≠ cfg.crouch_button)
    (hnot : ¬((decide (1/10 < s.left_brake_value) &&
                decide (1/10 < s.right_brake_value)) = false ∧
              s.both_brakes_pressed = true ∧
              cfg.toe_brake_mode = TOE_BRAKE_MODE_CROUCH ∧
              s.is_crouching = false ∧ s.is_running = true)) :
    (check_both_brakes_state cfg noFail s).1.is_running = s.is_running ∧
    (check_both_brakes_state cfg noFail s).1.above_threshold_time = s.above_threshold_time ∧
    ∀ b, WriteOp.buttonW cfg.run_button b ∉ (check_both_brakes_state cfg noFail s).2 := by
  unfold check_both_brakes_state toggle_crouch_mode noFail
  dsimp only
  repeat' split
  all_goals simp_all

/-- C10 amended: a brake event arriving while velocity is 0 never invokes
the sprint evaluation, and it leaves `is_running`, `above_threshold_time`
and the sprint button untouched UNLESS it is the falling edge of a
both-brake press in Crouch mode that enters crouch while sprint is held (in
that one case the crouch toggle itself releases sprint); distinct run and
crouch button indices are assumed so the two outputs do not alias. -/
theorem brake_at_zero_velocity_frame (cfg : Config) (s : TreadmillState)
    (rawL rawR tL tR : ℚ) (hv : s.velocity = 0)
    (hbtn : cfg.run_button ≠ cfg.crouch_button) :
    (¬(¬(1/10 < (rawL + 1) / 2 ∧ 1/10 < s.right_brake_value) ∧
        s.both_brakes_pressed = true ∧ cfg.toe_brake_mode = TOE_BRAKE_MODE_CROUCH ∧
        s.is_crouching = false ∧ s.is_running = true) →
      ((exceptState s (on_left_brake_move cfg noFail s rawL tL)).is_running = s.is_running ∧
       (exceptState s (on_left_brake_move cfg noFail s rawL tL)).above_threshold_time =
         s.above_threshold_time ∧
       ∀ b, WriteOp.buttonW cfg.run_button b ∉
         exceptWrites (on_left_brake_move cfg noFail s rawL tL))) ∧
    (¬(¬(1/10 < s.left_brake_value ∧ 1/10 < (rawR + 1) / 2) ∧
        s.both_brakes_pressed = true ∧ cfg.toe_brake_mode = TOE_BRAKE_MODE_CROUCH ∧
        s.is_crouching = false ∧ s.is_running = true) →
      ((exceptState s (on_right_brake_move cfg noFail s rawR tR)).is_running = s.is_running ∧
       (exceptState s (on_right_brake_move cfg noFail s rawR tR)).above_threshold_time =
         s.above_threshold_time ∧
       ∀ b, WriteOp.buttonW cfg.run_button b ∉
         exceptWrites (on_right_brake_move cfg noFail s rawR tR))) := by
  constructor
  · intro hnot
    have hfr := check_both_brakes_state_sprint_frame cfg
      { s with left_brake_value := (rawL + 1) / 2 } hbtn (by simpa using hnot)
    have hvel := (check_both_brakes_state_preserves cfg noFail
      { s with left_brake_value := (rawL + 1) / 2 }).1
    have hvz : ¬(0 < (check_both_brakes_state cfg noFail
        { s with left_brake_value := (rawL + 1) / 2 }).1.velocity) := by
      rw [hvel]
      simp [hv]
    by_cases hboth : (check_both_brakes_state cfg noFail
        { s with left_brake_value := (rawL + 1) / 2 }).1.both_brakes_pressed = true
    · simp only [on_left_brake_move, exceptState, exceptWrites, noFail, hboth, if_true,
        if_pos, hfr.1, hfr.2.1]
      exact ⟨trivial, trivial, hfr.2.2⟩
    · simp only [on_left_brake_move, exceptState, exceptWrites, noFail]
      rw [if_neg hboth, if_neg (by simp), if_neg hvz]
      refine ⟨hfr.1, hfr.2.1, fun b hb => ?_⟩
      rcases List.mem_append.1 hb with hb1 | hb2
      · exact hfr.2.2 b hb1
      · simp at hb2
  · intro hnot
    have hfr := check_both_brakes_state_sprint_frame cfg
      { s with right_brake_value := (rawR + 1) / 2 } hbtn (by simpa using hnot)
    have hvel := (check_both_brakes_state_preserves cfg noFail
      { s with right_brake_value := (rawR + 1) / 2 }).1
    have hvz : ¬(0 < (check_both_brakes_state cfg noFail
        { s with right_brake_value := (rawR + 1) / 2 }).1.velocity) := by
      rw [hvel]
      simp [hv]
    by_cases hboth : (check_both_brakes_state cfg noFail
        { s with right_brake_value := (rawR + 1) / 2 }).1.both_brakes_pressed = true
    · simp only [on_right_brake_move, exceptState, exceptWrites, noFail, hboth, if_true,
        if_pos, hfr.1, hfr.2.1]
      exact ⟨trivial, trivial, hfr.2.2⟩
    · simp only [on_right_brake_move, exceptState, exceptWrites, noFail]
      rw [if_neg hboth, if_neg (by simp), if_neg hvz]
      refine ⟨hfr.1, hfr.2.1, fun b hb => ?_⟩
      rcases List.mem_append.1 hb with hb1 | hb2
      · exact hfr.2.2 b hb1
      · simp at hb2

/-- Witness for the amended C10 frame theorem: releasing the only active
(left) brake while velocity is 0 and the sprint button is held leaves
`is_running` true — the held sprint button survives the brake release. -/
theorem brake_at_zero_velocity_frame_witness :
    (exceptState heldSprintLeftOnlyState
      (on_left_brake_move defaultConfig noFail heldSprintLeftOnlyState (-1) 0)).is_running = true := by
  have h := brake_at_zero_velocity_frame defaultConfig heldSprintLeftOnlyState
    (-1) 0 0 0 (by with_unfolding_all decide) (by with_unfolding_all decide)
  have h2 := h.1 (by with_unfolding_all decide)
  rw [h2.1]
  rfl

/-- Counterexample to C10 as stated: a left-brake release at velocity 0 that
forms the falling edge of a both-brake press in Crouch mode while the sprint
button is held does change `is_running` (true to false) and does write the
sprint button, because the crouch toggle releases sprint even though the
sprint evaluator itself is never invoked. -/
theorem brake_at_zero_velocity_cex :
    heldSprintZeroVelState.velocity = 0 ∧
    heldSprintZeroVelState.is_running = true ∧
    (exceptState heldSprintZeroVelState
      (on_left_brake_move defaultConfig noFail heldSprintZeroVelState (-1) 0)).is_running = false ∧
    WriteOp.buttonW defaultConfig.run_button false ∈
      exceptWrites (on_left_brake_move defaultConfig noFail heldSprintZeroVelState (-1) 0) := by
  with_unfolding_all decide

/-! ### Sprint-hold dwell (C4) -/

theorem run_release_check_state_of_not_running (cfg : Config)
    (s : TreadmillState) (hasLat : Bool) (acc : List WriteOp)
    (h : s.is_running = false) :
    (run_release_check cfg s hasLat acc).1 = s := by
  unfold run_release_check
  rw [if_neg]
  rintro ⟨hr, -, -⟩
  rw [h] at hr
  exact Bool.false_ne_true hr

theorem run_release_check_state_of_ge (cfg : Config)
    (s : TreadmillState) (hasLat : Bool) (acc : List WriteOp)
    (h : cfg.run_threshold ≤ s.velocity) :
    (run_release_check cfg s hasLat acc).1 = s := by
  unfold run_release_check
  rw [if_neg]
  rintro ⟨-, hlt, -⟩
  exact absurd hlt (not_lt.2 h)

theorem update_run_state_skip (cfg : Config) (fail : WriteOp → Bool)
    (s : TreadmillState) (t : ℚ)
    (h : cfg.sprint_enabled = false ∨ s.is_crouching = true) :
    update_run_state cfg fail s t = (s, []) := by
  unfold update_run_state
  rw [if_pos h]

theorem update_run_state_press (cfg : Config) (fail : WriteOp → Bool)
    (s : TreadmillState) (t : ℚ)
    (h0 : s.is_running = false)
    (h1 : (update_run_state cfg fail s t).1.is_running = true) :
    cfg.sprint_enabled = true ∧ s.is_crouching = false ∧
    ∃ a, s.above_threshold_time = some a ∧ cfg.run_duration ≤ t - a ∧
      cfg.run_threshold ≤ s.velocity ∧
      (update_run_state cfg fail s t).1.above_threshold_time = some a := by
  by_cases hskip : cfg.sprint_enabled = false ∨ s.is_crouching = true
  · rw [update_run_state_skip cfg fail s t hskip] at h1
    rw [h0] at h1
    exact absurd h1 Bool.false_ne_true
  · push_neg at hskip
    have hen : cfg.sprint_enabled = true := by simpa using hskip.1
    have hcr : s.is_crouching = false := by simpa using hskip.2
    refine ⟨hen, hcr, ?_⟩
    unfold update_run_state at h1 ⊢
    rw [if_neg (by rw [hen, hcr]; simp)] at h1 ⊢
    dsimp only at h1 ⊢
    by_cases hA : s.is_running = false ∧ cfg.run_threshold ≤ s.velocity
    · rw [if_pos hA] at h1 ⊢
      cases hatt : s.above_threshold_time with
      | none =>
          rw [hatt] at h1
          dsimp only at h1
          rw [run_release_check_state_of_not_running cfg
            { s with above_threshold_time := some t } _ _ h0] at h1
          rw [h0] at h1
          exact absurd h1 Bool.false_ne_true
      | some a =>
          rw [hatt] at h1
          dsimp only at h1 ⊢
          by_cases hdur : cfg.run_duration ≤ t - a
          · rw [if_pos hdur] at h1 ⊢
            refine ⟨a, rfl, hdur, hA.2, ?_⟩
            by_cases hw : fail (WriteOp.buttonW cfg.run_button true) = true
            · rw [if_pos hw]
            · rw [if_neg hw]
              rw [run_release_check_state_of_ge cfg
                { s with is_running := true, above_threshold_time := some a } _ _ hA.2]
          · rw [if_neg hdur] at h1
            rw [run_release_check_state_of_not_running cfg s _ _ h0] at h1
            rw [h0] at h1
            exact absurd h1 Bool.false_ne_true
    · rw [if_neg hA] at h1
      by_cases hB : s.is_running = false ∧ s.velocity < cfg.run_threshold
      · rw [if_pos hB] at h1
        rw [run_release_check_state_of_not_running cfg
          { s with above_threshold_time := none } _ _ h0] at h1
        rw [h0] at h1
        exact absurd h1 Bool.false_ne_true
      · rw [if_neg hB] at h1
        rw [run_release_check_state_of_not_running cfg s _ _ h0] at h1
        rw [h0] at h1
        exact absurd h1 Bool.false_ne_true

theorem update_run_state_keep (cfg : Config) (fail : WriteOp → Bool)
    (s : TreadmillState) (t : ℚ)
    (hen : cfg.sprint_enabled = true) (hcr : s.is_crouching = false)
    (h0 : (update_run_state cfg fail s t).1.is_running = false)
    (a : ℚ)
    (h1 : (update_run_state cfg fail s t).1.above_threshold_time = some a) :
    s.is_running = false ∧ cfg.run_threshold ≤ s.velocity ∧
    (s.above_threshold_time = some a ∨
      (s.above_threshold_time = none ∧ a = t)) := by
  unfold update_run_state at h0 h1
  rw [if_neg (by rw [hen, hcr]; simp)] at h0 h1
  dsimp only at h0 h1
  by_cases hA : s.is_running = false ∧ cfg.run_threshold ≤ s.velocity
  · rw [if_pos hA] at h0 h1
    cases hatt : s.above_threshold_time with
    | none =>
        rw [hatt] at h1
        dsimp only at h1
        rw [run_release_check_state_of_not_running cfg
          { s with above_threshold_time := some t } _ _ hA.1] at h1
        exact ⟨hA.1, hA.2, Or.inr ⟨rfl, by simpa using h1.symm⟩⟩
    | some b =>
        rw [hatt] at h0 h1
        dsimp only at h0 h1
        by_cases hdur : cfg.run_duration ≤ t - b
        · rw [if_pos hdur] at h0
          exfalso
          by_cases hw : fail (WriteOp.buttonW cfg.run_button true) = true
          · rw [if_pos hw] at h0
            simp at h0
          · rw [if_neg hw] at h0
            rw [run_release_check_state_of_ge cfg
              { s with is_running := true, above_threshold_time := some b } _ _ hA.2] at h0
            simp at h0
        · rw [if_neg hdur] at h1
          rw [run_release_check_state_of_not_running cfg s _ _ hA.1] at h1
          refine ⟨hA.1, hA.2, Or.inl ?_⟩
          rw [← hatt]
          exact h1
  · exfalso
    rcases Bool.eq_false_or_eq_true s.is_running with htr | hf
    · have hB : ¬(s.is_running = false ∧ s.velocity < cfg.run_threshold) := by
        rintro ⟨hc, -⟩
        rw [htr] at hc
        exact Bool.noConfusion hc
      rw [if_neg hA, if_neg hB] at h0 h1
      unfold run_release_check at h0 h1
      by_cases hrel : s.is_running = true ∧ s.velocity < cfg.run_threshold ∧
          (decide (1/10 < s.left_brake_value) ||
            decide (1/10 < s.right_brake_value)) = false
      · rw [if_pos hrel] at h1
        simp at h1
      · rw [if_neg hrel] at h0
        dsimp only at h0
        rw [htr] at h0
        exact Bool.noConfusion h0
    · rcases lt_or_le s.velocity cfg.run_threshold with hlt | hge
      · rw [if_neg hA, if_pos ⟨hf, hlt⟩] at h1
        rw [run_release_check_state_of_not_running cfg
          { s with above_threshold_time := none } _ _ hf] at h1
        simp at h1
      · exact hA ⟨hf, hge⟩
theorem stateAt_zero (cfg : Config) (evs : List Ev) :
    stateAt cfg evs 0 = initState := rfl

theorem stateAt_succ_of_lt (cfg : Config) (evs : List Ev) (k : ℕ)
    (hk : k < evs.length) :
    stateAt cfg evs (k+1) = step cfg (stateAt cfg evs k) (evs.getD k .decayExit) := by
  unfold stateAt runEvents
  rw [List.take_succ, List.getElem?_eq_getElem hk, List.foldl_append,
    List.getD_eq_getElem evs _ hk]
  rfl

theorem stateAt_succ_of_ge (cfg : Config) (evs : List Ev) (k : ℕ)
    (hk : evs.length ≤ k) :
    stateAt cfg evs (k+1) = stateAt cfg evs k := by
  unfold stateAt
  rw [List.take_of_length_le hk, List.take_of_length_le (le_trans hk (Nat.le_succ k))]

theorem stateAt_crouch_false (cfg : Config) (evs : List Ev)
    (hRT : ∀ e ∈ evs, e.isRudderOrTick = true) (k : ℕ) :
    (stateAt cfg evs k).is_crouching = false := by
  induction k with
  | zero => rfl
  | succ k ih =>
      rcases lt_or_le k evs.length with hk | hk
      · rw [stateAt_succ_of_lt cfg evs k hk]
        have hmem : evs.getD k Ev.decayExit ∈ evs := by
          rw [List.getD_eq_getElem evs _ hk]
          exact List.getElem_mem hk
        have hrt := hRT _ hmem
        cases hev : evs.getD k Ev.decayExit with
        | rudder raw t =>
            rw [step_rudder_eq,
              (update_run_state_preserves cfg noFail _ t).2.2.2.2.2,
              (rudder_velocity_update_preserves cfg _ raw).2.2.2.2.2]
            exact ih
        | tick t =>
            rw [step_tick_eq,
              (update_run_state_preserves cfg noFail _ t).2.2.2.2.2,
              (decay_velocity_update_preserves cfg _).2.2.2.2.2.2]
            exact ih
        | leftBrake raw t =>
            rw [hev] at hrt
            exact absurd hrt (by simp [Ev.isRudderOrTick])
        | rightBrake raw t =>
            rw [hev] at hrt
            exact absurd hrt (by simp [Ev.isRudderOrTick])
        | decayExit =>
            rw [hev] at hrt
            exact absurd hrt (by simp [Ev.isRudderOrTick])
      · rw [stateAt_succ_of_ge cfg evs k hk]
        exact ih

theorem stateAt_att_history (cfg : Config) (hen : cfg.sprint_enabled = true)
    (evs : List Ev) (hRT : ∀ e ∈ evs, e.isRudderOrTick = true) (k : ℕ) :
    ∀ a : ℚ, (stateAt cfg evs k).is_running = false →
      (stateAt cfg evs k).above_threshold_time = some a →
    ∃ j, j < k ∧ j < evs.length ∧
      (stateAt cfg evs j).above_threshold_time = none ∧
      (stateAt cfg evs (j+1)).above_threshold_time = some a ∧
      a = evTime (evs.getD j .decayExit) ∧
      ∀ m, j < m → m ≤ k → cfg.run_threshold ≤ (stateAt cfg evs m).velocity := by
  induction k with
  | zero => exact fun a hrun hatt => Option.noConfusion hatt
  | succ k ih =>
      intro a hrun hatt
      rcases lt_or_le k evs.length with hk | hk
      · have hstep := stateAt_succ_of_lt cfg evs k hk
        have hmem : evs.getD k Ev.decayExit ∈ evs := by
          rw [List.getD_eq_getElem evs _ hk]
          exact List.getElem_mem hk
        have hrt := hRT _ hmem
        cases hev : evs.getD k Ev.decayExit with
        | rudder raw t =>
            rw [hev, step_rudder_eq] at hstep
            have hpr := rudder_velocity_update_preserves cfg (stateAt cfg evs k) raw
            have hup := update_run_state_preserves cfg noFail
              (rudder_velocity_update cfg (stateAt cfg evs k) raw) t
            have hmidcr : (rudder_velocity_update cfg (stateAt cfg evs k) raw).is_crouching = false := by
              rw [hpr.2.2.2.2.2]
              exact stateAt_crouch_false cfg evs hRT k
            have hkeep := update_run_state_keep cfg noFail
              (rudder_velocity_update cfg (stateAt cfg evs k) raw) t hen hmidcr
              (by rw [← hstep]; exact hrun) a (by rw [← hstep]; exact hatt)
            have hrunk : (stateAt cfg evs k).is_running = false := by
              rw [← hpr.1]
              exact hkeep.1
            have hvk1 : cfg.run_threshold ≤ (stateAt cfg evs (k+1)).velocity := by
              rw [hstep, hup.1]
              exact hkeep.2.1
            rcases hkeep.2.2 with hsome | ⟨hnone, hat⟩
            · have hprev : (stateAt cfg evs k).above_threshold_time = some a := by
                rw [← hpr.2.1]
                exact hsome
              obtain ⟨j, hj1, hj2, hj3, hj4, hj5, hj6⟩ := ih a hrunk hprev
              refine ⟨j, Nat.lt_succ_of_lt hj1, hj2, hj3, hj4, hj5, fun m hm1 hm2 => ?_⟩
              rcases eq_or_lt_of_le hm2 with heq | hlt
              · rw [heq]
                exact hvk1
              · exact hj6 m hm1 (Nat.lt_succ_iff.mp hlt)
            · have hprevn : (stateAt cfg evs k).above_threshold_time = none := by
                rw [← hpr.2.1]
                exact hnone
              refine ⟨k, Nat.lt_succ_self k, hk, hprevn, hatt, by rw [hev]; exact hat,
                fun m hm1 hm2 => ?_⟩
              have hme : m = k + 1 := le_antisymm hm2 hm1
              rw [hme]
              exact hvk1
        | tick t =>
            rw [hev, step_tick_eq] at hstep
            have hpr := decay_velocity_update_preserves cfg (stateAt cfg evs k)
            have hup := update_run_state_preserves cfg noFail
              (decay_velocity_update cfg (stateAt cfg evs k)) t
            have hmidcr : (decay_velocity_update cfg (stateAt cfg evs k)).is_crouching = false := by
              rw [hpr.2.2.2.2.2.2]
              exact stateAt_crouch_false cfg evs hRT k
            have hkeep := update_run_state_keep cfg noFail
              (decay_velocity_update cfg (stateAt cfg evs k)) t hen hmidcr
              (by rw [← hstep]; exact hrun) a (by rw [← hstep]; exact hatt)
            have hrunk : (stateAt cfg evs k).is_running = false := by
              rw [← hpr.1]
              exact hkeep.1
            have hvk1 : cfg.run_threshold ≤ (stateAt cfg evs (k+1)).velocity := by
              rw [hstep, hup.1]
              exact hkeep.2.1
            rcases hkeep.2.2 with hsome | ⟨hnone, hat⟩
            · have hprev : (stateAt cfg evs k).above_threshold_time = some a := by
                rw [← hpr.2.1]
                exact hsome
              obtain ⟨j, hj1, hj2, hj3, hj4, hj5, hj6⟩ := ih a hrunk hprev
              refine ⟨j, Nat.lt_succ_of_lt hj1, hj2, hj3, hj4, hj5, fun m hm1 hm2 => ?_⟩
              rcases eq_or_lt_of_le hm2 with heq | hlt
              · rw [heq]
                exact hvk1
              · exact hj6 m hm1 (Nat.lt_succ_iff.mp hlt)
            · have hprevn : (stateAt cfg evs k).above_threshold_time = none := by
                rw [← hpr.2.1]
                exact hnone
              refine ⟨k, Nat.lt_succ_self k, hk, hprevn, hatt, by rw [hev]; exact hat,
                fun m hm1 hm2 => ?_⟩
              have hme : m = k + 1 := le_antisymm hm2 hm1
              rw [hme]
              exact hvk1
        | leftBrake raw t =>
            rw [hev] at hrt
            exact absurd hrt (by simp [Ev.isRudderOrTick])
        | rightBrake raw t =>
            rw [hev] at hrt
            exact absurd hrt (by simp [Ev.isRudderOrTick])
        | decayExit =>
            rw [hev] at hrt
            exact absurd hrt (by simp [Ev.isRudderOrTick])
      · rw [stateAt_succ_of_ge cfg evs k hk] at hrun hatt
        obtain ⟨j, hj1, hj2, hj3, hj4, hj5, hj6⟩ := ih a hrun hatt
        refine ⟨j, Nat.lt_succ_of_lt hj1, hj2, hj3, hj4, hj5, fun m hm1 hm2 => ?_⟩
        rcases eq_or_lt_of_le hm2 with heq | hlt
        · rw [heq, stateAt_succ_of_ge cfg evs k hk]
          exact hj6 k hj1 (le_refl k)
        · exact hj6 m hm1 (Nat.lt_succ_iff.mp hlt)

/-- Counterexample to C4 as stated: over a trace that also contains brake
events, the sprint machine presses the button at event 7 (state 7 to
state 8) even though velocity was below the run threshold at state 5, only
0.03 s (less than `run_duration` = 0.2 s) before the press — a crouch
interlude keeps the recorded timestamp alive while the evaluator is
skipped, so the dwell was not spent continuously at or above the
threshold. -/
theorem sprint_hold_dip_cex :
    (stateAt dipConfig dipEvents 7).is_running = false ∧
    (stateAt dipConfig dipEvents 8).is_running = true ∧
    (stateAt dipConfig dipEvents 5).velocity < dipConfig.run_threshold ∧
    evTime (dipEvents.getD 7 Ev.decayExit) - evTime (dipEvents.getD 4 Ev.decayExit) <
      dipConfig.run_duration := by
  with_unfolding_all decide

/-- C4 amended: restricted to traces of rudder-move and decay-tick events
(no brake events, hence no crouch interludes), with the sprint feature
enabled: whenever the sprint machine moves from not-holding to holding at
event `i`, the pre-state carries a timestamp `a` recorded at an earlier
evaluation `j` whose state was the first at or above the threshold
(`above_threshold_time` went from `none` to `some a`, `a` the time of
event `j`), the elapsed time satisfies `t_i - a ≥ run_duration`, and the
velocity was at or above `run_threshold` at every evaluation from the
recording through the press. -/
theorem sprint_hold_requires_dwell (cfg : Config)
    (hen : cfg.sprint_enabled = true) (evs : List Ev)
    (hRT : ∀ e ∈ evs, e.isRudderOrTick = true) (i : ℕ) (hi : i < evs.length)
    (h0 : (stateAt cfg evs i).is_running = false)
    (h1 : (stateAt cfg evs (i+1)).is_running = true) :
    ∃ a, (stateAt cfg evs i).above_threshold_time = some a ∧
      cfg.run_duration ≤ evTime (evs.getD i Ev.decayExit) - a ∧
      cfg.run_threshold ≤ (stateAt cfg evs (i+1)).velocity ∧
      ∃ j, j < i ∧
        (stateAt cfg evs j).above_threshold_time = none ∧
        (stateAt cfg evs (j+1)).above_threshold_time = some a ∧
        a = evTime (evs.getD j Ev.decayExit) ∧
        ∀ m, j < m → m ≤ i + 1 →
          cfg.run_threshold ≤ (stateAt cfg evs m).velocity := by
  have hstep := stateAt_succ_of_lt cfg evs i hi
  have hmem : evs.getD i Ev.decayExit ∈ evs := by
    rw [List.getD_eq_getElem evs _ hi]
    exact List.getElem_mem hi
  have hrt := hRT _ hmem
  cases hev : evs.getD i Ev.decayExit with
  | rudder raw t =>
      rw [hev, step_rudder_eq] at hstep
      have hpr := rudder_velocity_update_preserves cfg (stateAt cfg evs i) raw
      have hup := update_run_state_preserves cfg noFail
        (rudder_velocity_update cfg (stateAt cfg evs i) raw) t
      obtain ⟨-, -, a, hatta, hdur, hthr, -⟩ := update_run_state_press cfg noFail
        (rudder_velocity_update cfg (stateAt cfg evs i) raw) t
        (by rw [hpr.1]; exact h0) (by rw [← hstep]; exact h1)
      have hattk : (stateAt cfg evs i).above_threshold_time = some a := by
        rw [← hpr.2.1]
        exact hatta
      have hvk1 : cfg.run_threshold ≤ (stateAt cfg evs (i+1)).velocity := by
        rw [hstep, hup.1]
        exact hthr
      obtain ⟨j, hj1, hj2, hj3, hj4, hj5, hj6⟩ :=
        stateAt_att_history cfg hen evs hRT i a h0 hattk
      refine ⟨a, hattk, hdur, hvk1, j, hj1, hj3, hj4, hj5, fun m hm1 hm2 => ?_⟩
      rcases eq_or_lt_of_le hm2 with heq | hlt
      · rw [heq]
        exact hvk1
      · exact hj6 m hm1 (Nat.lt_succ_iff.mp hlt)
  | tick t =>
      rw [hev, step_tick_eq] at hstep
      have hpr := decay_velocity_update_preserves cfg (stateAt cfg evs i)
      have hup := update_run_state_preserves cfg noFail
        (decay_velocity_update cfg (stateAt cfg evs i)) t
      obtain ⟨-, -, a, hatta, hdur, hthr, -⟩ := update_run_state_press cfg noFail
        (decay_velocity_update cfg (stateAt cfg evs i)) t
        (by rw [hpr.1]; exact h0) (by rw [← hstep]; exact h1)
      have hattk : (stateAt cfg evs i).above_threshold_time = some a := by
        rw [← hpr.2.1]
        exact hatta
      have hvk1 : cfg.run_threshold ≤ (stateAt cfg evs (i+1)).velocity := by
        rw [hstep, hup.1]
        exact hthr
      obtain ⟨j, hj1, hj2, hj3, hj4, hj5, hj6⟩ :=
        stateAt_att_history cfg hen evs hRT i a h0 hattk
      refine ⟨a, hattk, hdur, hvk1, j, hj1, hj3, hj4, hj5, fun m hm1 hm2 => ?_⟩
      rcases eq_or_lt_of_le hm2 with heq | hlt
      · rw [heq]
        exact hvk1
      · exact hj6 m hm1 (Nat.lt_succ_iff.mp hlt)
  | leftBrake raw t =>
      rw [hev] at hrt
      exact absurd hrt (by simp [Ev.isRudderOrTick])
  | rightBrake raw t =>
      rw [hev] at hrt
      exact absurd hrt (by simp [Ev.isRudderOrTick])
  | decayExit =>
      rw [hev] at hrt
      exact absurd hrt (by simp [Ev.isRudderOrTick])

/-- Witness for the amended C4 on the concrete press trace (rudder swing to
velocity 0.8 at t=0, decay tick at t=0.3): the press at event 1 satisfies
the dwell conclusion. -/
theorem sprint_hold_requires_dwell_witness :
    (stateAt defaultConfig pressEvents 1).is_running = false ∧
    (stateAt defaultConfig pressEvents 2).is_running = true ∧
    (∃ a, (stateAt defaultConfig pressEvents 1).above_threshold_time = some a ∧
      defaultConfig.run_duration ≤ evTime (pressEvents.getD 1 Ev.decayExit) - a ∧
      defaultConfig.run_threshold ≤ (stateAt defaultConfig pressEvents 2).velocity ∧
      ∃ j, j < 1 ∧
        (stateAt defaultConfig pressEvents j).above_threshold_time = none ∧
        (stateAt defaultConfig pressEvents (j+1)).above_threshold_time = some a ∧
        a = evTime (pressEvents.getD j Ev.decayExit) ∧
        ∀ m, j < m → m ≤ 1 + 1 →
          defaultConfig.run_threshold ≤ (stateAt defaultConfig pressEvents m).velocity) :=
  ⟨by with_unfolding_all decide, by with_unfolding_all decide,
   sprint_hold_requires_dwell defaultConfig (by with_unfolding_all decide)
     pressEvents (by with_unfolding_all decide) 1 (by with_unfolding_all decide)
     (by with_unfolding_all decide) (by with_unfolding_all decide)⟩

end RudderWalker
